import Mathlib

/-!
Verification of the antenny PID platform controller
(`nyansat/station/controller/pid_controller.py`).

The Python class `PIDPlatformController` is shallowly embedded below.
Angles (IMU readings, setpoints, deadzone bounds) are rationals; servo
command positions are integers.  Python's `int(x)` (truncation toward
zero) is `intTrunc`.  Stateful methods become explicit state-passing
functions; the IMU is modelled as a function from the commanded servo
position (or platform state) to the reading obtained after the settle
delay, since a given pose yields a given reading.
-/

namespace Antenny

/-- Python `int(q)`: truncation of a rational toward zero. -/
def intTrunc (q : ℚ) : ℤ :=
  if q < 0 then ⌈q⌉ else ⌊q⌋

/-! ## Setpoint store and deadzone gating

Mirrors the fields `deadzone` (initially `None`), `new_azimuth` and
`new_elevation` of `PIDPlatformController`, and the methods
`set_azimuth` (lines 70-83), `set_elevation` (92-99) and
`set_coordinates` (126-135). -/

structure ControllerState where
  deadzone : Option (List (ℚ × ℚ))
  new_azimuth : ℚ
  new_elevation : ℚ
deriving DecidableEq

/-- The loop `for dead_zone_min, dead_zone_max in self.deadzone: if
dead_zone_min < azimuth < dead_zone_max: return` rejects exactly when
some interval strictly contains the requested azimuth. -/
def inDeadzone (dz : List (ℚ × ℚ)) (azimuth : ℚ) : Bool :=
  dz.any (fun p => decide (p.1 < azimuth) && decide (azimuth < p.2))

/-- `PIDPlatformController.set_azimuth` (lines 70-83): refuse when the
deadzone is `None` or the target lies strictly inside an interval;
otherwise store the new azimuth setpoint. -/
def set_azimuth (s : ControllerState) (azimuth : ℚ) : ControllerState :=
  match s.deadzone with
  | none => s
  | some dz =>
      if inDeadzone dz azimuth then s
      else { s with new_azimuth := azimuth }

/-- `PIDPlatformController.set_elevation` (lines 92-99): unconditional. -/
def set_elevation (s : ControllerState) (elevation : ℚ) : ControllerState :=
  { s with new_elevation := elevation }

/-- `PIDPlatformController.set_coordinates` (lines 126-135): elevation
first, then azimuth. -/
def set_coordinates (s : ControllerState) (azimuth elevation : ℚ) : ControllerState :=
  set_azimuth (set_elevation s elevation) azimuth

lemma inDeadzone_iff (dz : List (ℚ × ℚ)) (azimuth : ℚ) :
    inDeadzone dz azimuth = true ↔ ∃ p ∈ dz, p.1 < azimuth ∧ azimuth < p.2 := by
  simp [inDeadzone, List.any_eq_true]

/-! ## Angular delta (`get_delta`, lines 243-254) -/

/-- Python `abs` on a rational, written out by sign cases. -/
def ratAbs (q : ℚ) : ℚ := if q < 0 then -q else q

lemma ratAbs_eq_abs (q : ℚ) : ratAbs q = |q| := by
  unfold ratAbs
  rcases lt_or_ge q 0 with h | h
  · rw [if_pos h, abs_of_neg h]
  · rw [if_neg (not_lt.mpr h), abs_of_nonneg h]

/-- `PIDPlatformController.get_delta`: `d = abs(current - prev); if d >
180: d = 360 - d; return d`. -/
def get_delta (current prev : ℚ) : ℚ :=
  let d := ratAbs (current - prev)
  if d > 180 then 360 - d else d

/-! ## Orientation probe (`orient`, lines 352-367)

The azimuth servo is commanded to its min bound, then its max bound,
with the IMU read after each settle; the two readings determine the
stored deadzone.  The IMU is a function from commanded position to
reading. -/

structure OrientEnv where
  azimuth_min_position : ℤ
  azimuth_max_position : ℤ
  imu_azimuth_at : ℤ → ℚ

/-- `PIDPlatformController.orient`: computes the deadzone from the
readings at the two bounds, stores it and returns it. -/
def orient (env : OrientEnv) (s : ControllerState) :
    ControllerState × List (ℚ × ℚ) :=
  let min_azimuth := env.imu_azimuth_at env.azimuth_min_position
  let max_azimuth := env.imu_azimuth_at env.azimuth_max_position
  let dz :=
    if min_azimuth > max_azimuth then
      [(min_azimuth, 360), (0, max_azimuth)]
    else
      [(min_azimuth, max_azimuth)]
  ({ s with deadzone := some dz }, dz)

/-! ## Theorems: claims C1, C4, C3, C10 -/

/-- C1: `set_azimuth(deg)` leaves the controller state unchanged (only a
diagnostic is printed) when the deadzone is unset (`None`) or `deg` lies
strictly inside some deadzone interval; otherwise the azimuth setpoint
becomes `deg`. -/
theorem set_azimuth_deadzone_gating (s : ControllerState) (deg : ℚ) :
    set_azimuth s deg =
      if s.deadzone = none ∨ ∃ p ∈ s.deadzone.getD [], p.1 < deg ∧ deg < p.2
      then s
      else { s with new_azimuth := deg } := by
  cases h : s.deadzone with
  | none => simp [set_azimuth, h]
  | some dz =>
      simp only [set_azimuth, h, Option.getD_some, reduceCtorEq, false_or]
      by_cases hex : ∃ p ∈ dz, p.1 < deg ∧ deg < p.2
      · rw [if_pos ((inDeadzone_iff dz deg).mpr hex), if_pos hex]
      · rw [if_neg (fun hb => hex ((inDeadzone_iff dz deg).mp hb)), if_neg hex]

/-- C4: the angular delta is symmetric, equals `|a - b|` when that is at
most 180 and `360 - |a - b|` otherwise, with `get_delta 350 10 = 20` and
`get_delta 10 20 = 10`. -/
theorem get_delta_shortest_arc (a b : ℚ) :
    get_delta a b = get_delta b a ∧
    get_delta a b = (if |a - b| ≤ 180 then |a - b| else 360 - |a - b|) ∧
    get_delta 350 10 = 20 ∧ get_delta 10 20 = 10 := by
  refine ⟨?_, ?_, by norm_num [get_delta, ratAbs], by norm_num [get_delta, ratAbs]⟩
  · unfold get_delta
    rw [ratAbs_eq_abs, ratAbs_eq_abs, abs_sub_comm]
  · unfold get_delta
    rw [ratAbs_eq_abs]
    by_cases h : |a - b| ≤ 180
    · rw [if_neg (not_lt.mpr h), if_pos h]
    · rw [if_pos (not_le.mp h), if_neg h]

/-- C3: `orient()` stores and returns `[(min_azimuth, 360), (0,
max_azimuth)]` when the reading at the minimum bound exceeds the reading
at the maximum bound, and `[(min_azimuth, max_azimuth)]` otherwise; in
particular readings 300/30 give `[(300, 360), (0, 30)]` and readings
10/350 give `[(10, 350)]`. -/
theorem orient_deadzone (env : OrientEnv) (s : ControllerState) :
    (orient env s).2 =
      (if env.imu_azimuth_at env.azimuth_min_position >
          env.imu_azimuth_at env.azimuth_max_position
       then [(env.imu_azimuth_at env.azimuth_min_position, 360),
             (0, env.imu_azimuth_at env.azimuth_max_position)]
       else [(env.imu_azimuth_at env.azimuth_min_position,
              env.imu_azimuth_at env.azimuth_max_position)]) ∧
    (orient env s).1.deadzone = some ((orient env s).2) ∧
    (orient ⟨0, 4095, fun p => if p = 0 then 300 else 30⟩ s).2 =
      [(300, 360), (0, 30)] ∧
    (orient ⟨0, 4095, fun p => if p = 0 then 10 else 350⟩ s).2 =
      [(10, 350)] := by
  refine ⟨rfl, rfl, ?_, ?_⟩
  · norm_num [orient]
  · norm_num [orient]

/-- C10: `set_coordinates(az, el)` always writes the elevation setpoint
first; when `az` is rejected (deadzone unset or `az` strictly inside a
deadzone interval) the elevation setpoint still becomes `el` while the
azimuth setpoint is unchanged. -/
theorem set_coordinates_not_atomic (s : ControllerState) (az el : ℚ) :
    (set_coordinates s az el).new_elevation = el ∧
    ((s.deadzone = none ∨ ∃ p ∈ s.deadzone.getD [], p.1 < az ∧ az < p.2) →
      (set_coordinates s az el).new_azimuth = s.new_azimuth) := by
  constructor
  · unfold set_coordinates set_azimuth set_elevation
    cases s.deadzone with
    | none => rfl
    | some dz =>
        simp only
        by_cases hb : inDeadzone dz az
        · rw [if_pos hb]
        · rw [if_neg hb]
  · intro hrej
    unfold set_coordinates set_azimuth set_elevation
    cases h : s.deadzone with
    | none => rfl
    | some dz =>
        rcases hrej with hnone | hex
        · rw [h] at hnone
          exact absurd hnone (by simp)
        · rw [h] at hex
          simp only [Option.getD_some] at hex
          simp only
          rw [if_pos ((inDeadzone_iff dz az).mpr hex)]

/-- Witness for C10 at a concrete rejected azimuth: deadzone `[(10, 20)]`,
requested azimuth 15 (strictly inside), elevation 7. -/
theorem set_coordinates_not_atomic_witness :
    (set_coordinates ⟨some [(10, 20)], 5, 0⟩ 15 7).new_elevation = 7 ∧
    (set_coordinates ⟨some [(10, 20)], 5, 0⟩ 15 7).new_azimuth = 5 :=
  ⟨(set_coordinates_not_atomic ⟨some [(10, 20)], 5, 0⟩ 15 7).1,
   (set_coordinates_not_atomic ⟨some [(10, 20)], 5, 0⟩ 15 7).2
     (Or.inr ⟨(10, 20), by simp, by norm_num, by norm_num⟩)⟩

/-! ## PID tick (`__pid_loop`, lines 137-149)

The generic PID algorithm is an external capability (spec §1): given the
measurement it returns a correction clamped to `output_limits`.  We model
the raw pre-clamp value the capability would produce on tick `k` as an
arbitrary stream `raw k` and apply the clamp; the tick then takes
`el_duty = int(elevation_pid(_elevation))` and
`az_duty = int(azimuth_pid(_azimuth)) * -1` (lines 146-147). -/

/-- Clamping to `output_limits = (lo, hi)`. -/
def clampOut (lo hi x : ℚ) : ℚ := max lo (min hi x)

/-- One tick's actuator corrections (elevation duty, azimuth duty),
given the two clamped PID outputs; the azimuth correction is negated
(line 147). -/
def pid_tick_duties (lo hi raw_el raw_az : ℚ) : ℤ × ℤ :=
  (intTrunc (clampOut lo hi raw_el), -(intTrunc (clampOut lo hi raw_az)))

/-- `n` consecutive ticks of `__pid_loop`, with the PID capability's raw
outputs on tick `k` given by `raw_el k` and `raw_az k`. -/
def pid_loop_run (lo hi : ℚ) (raw_el raw_az : ℕ → ℚ) (n : ℕ) : List (ℤ × ℤ) :=
  (List.range n).map (fun k => pid_tick_duties lo hi (raw_el k) (raw_az k))

lemma clampOut_bounds (lo hi x : ℚ) (h : lo ≤ hi) :
    lo ≤ clampOut lo hi x ∧ clampOut lo hi x ≤ hi := by
  constructor
  · exact le_max_left lo _
  · exact max_le h (min_le_left hi x)

lemma intTrunc_bounds (L q : ℚ) (hL : 0 ≤ L) (h1 : -L ≤ q) (h2 : q ≤ L) :
    -L ≤ (intTrunc q : ℚ) ∧ (intTrunc q : ℚ) ≤ L := by
  unfold intTrunc
  by_cases h : q < 0
  · rw [if_pos h]
    constructor
    · exact le_trans h1 (Int.le_ceil q)
    · have hc : (⌈q⌉ : ℤ) ≤ 0 := Int.ceil_le.mpr (by exact_mod_cast le_of_lt h)
      have : ((⌈q⌉ : ℤ) : ℚ) ≤ 0 := by exact_mod_cast hc
      exact le_trans this hL
  · rw [if_neg h]
    constructor
    · have hf : (0 : ℤ) ≤ ⌊q⌋ := Int.floor_nonneg.mpr (not_lt.mp h)
      have : (0 : ℚ) ≤ ((⌊q⌋ : ℤ) : ℚ) := by exact_mod_cast hf
      linarith
    · exact le_trans (Int.floor_le q) h2

/-- C2: with symmetric output limits `(-L, L)` (default `L = 20`) and the
PID capability clamping its output to those limits, both per-axis
corrections issued on every tick `k` of an `n`-tick run lie within
`[-L, L]`, for any raw PID output streams. -/
theorem pid_loop_duties_within_limits (L : ℚ) (hL : 0 ≤ L)
    (raw_el raw_az : ℕ → ℚ) (n k : ℕ) (hk : k < n) :
    -L ≤ (((pid_loop_run (-L) L raw_el raw_az n).getD k (0, 0)).1 : ℚ) ∧
    (((pid_loop_run (-L) L raw_el raw_az n).getD k (0, 0)).1 : ℚ) ≤ L ∧
    -L ≤ (((pid_loop_run (-L) L raw_el raw_az n).getD k (0, 0)).2 : ℚ) ∧
    (((pid_loop_run (-L) L raw_el raw_az n).getD k (0, 0)).2 : ℚ) ≤ L := by
  have hlen : k < (pid_loop_run (-L) L raw_el raw_az n).length := by
    simpa [pid_loop_run] using hk
  rw [List.getD_eq_getElem _ _ hlen]
  have hd : (pid_loop_run (-L) L raw_el raw_az n)[k] =
      pid_tick_duties (-L) L (raw_el k) (raw_az k) := by
    simp [pid_loop_run]
  rw [hd]
  have hle : -L ≤ L := by linarith
  have hel := clampOut_bounds (-L) L (raw_el k) hle
  have haz := clampOut_bounds (-L) L (raw_az k) hle
  have hel2 := intTrunc_bounds L (clampOut (-L) L (raw_el k)) hL hel.1 hel.2
  have haz2 := intTrunc_bounds L (clampOut (-L) L (raw_az k)) hL haz.1 haz.2
  refine ⟨hel2.1, hel2.2, ?_, ?_⟩
  · show -L ≤ ((-(intTrunc (clampOut (-L) L (raw_az k))) : ℤ) : ℚ)
    push_cast
    linarith [haz2.2]
  · show ((-(intTrunc (clampOut (-L) L (raw_az k))) : ℤ) : ℚ) ≤ L
    push_cast
    linarith [haz2.1]

/-- Witness for C2 at the default limits `(-20, 20)`, raw outputs
constantly 100, a 3-tick run, tick 0. -/
theorem pid_loop_duties_within_limits_witness :
    -(20 : ℚ) ≤
      (((pid_loop_run (-20) 20 (fun _ => 100) (fun _ => 100) 3).getD 0 (0, 0)).1 : ℚ) ∧
    (((pid_loop_run (-20) 20 (fun _ => 100) (fun _ => 100) 3).getD 0 (0, 0)).1 : ℚ) ≤ 20 ∧
    -(20 : ℚ) ≤
      (((pid_loop_run (-20) 20 (fun _ => 100) (fun _ => 100) 3).getD 0 (0, 0)).2 : ℚ) ∧
    (((pid_loop_run (-20) 20 (fun _ => 100) (fun _ => 100) 3).getD 0 (0, 0)).2 : ℚ) ≤ 20 :=
  pid_loop_duties_within_limits 20 (by norm_num) (fun _ => 100) (fun _ => 100) 3 0
    (by norm_num)

/-! ## Constructor (`__init__`, lines 15-46, and `init_pid`, 48-62)

Lines 35-36 command each servo to `int((max_position - min_position) / 2)`;
lines 37-38 set `new_elevation = 0` and `new_azimuth = 0`; `init_pid`
creates the two PIDs with `setpoint=self.new_elevation` /
`setpoint=self.new_azimuth`, i.e. 0. -/

structure ServoBounds where
  min_position : ℤ
  max_position : ℤ
deriving DecidableEq

structure InitState where
  azimuth_position : ℤ
  elevation_position : ℤ
  new_azimuth : ℚ
  new_elevation : ℚ
  deadzone : Option (List (ℚ × ℚ))
  azimuth_pid_setpoint : ℚ
  elevation_pid_setpoint : ℚ
deriving DecidableEq

/-- State produced by `PIDPlatformController.__init__` as a function of
the two servos' command bounds. -/
def controller_init (az el : ServoBounds) : InitState :=
  { azimuth_position :=
      intTrunc (((az.max_position : ℚ) - (az.min_position : ℚ)) / 2),
    elevation_position :=
      intTrunc (((el.max_position : ℚ) - (el.min_position : ℚ)) / 2),
    new_azimuth := 0,
    new_elevation := 0,
    deadzone := none,
    azimuth_pid_setpoint := 0,
    elevation_pid_setpoint := 0 }

/-- Counterexample to C7: with both servos bounded `1000..3000`
(midpoint 2000), construction initializes the azimuth setpoint to 0, not
2000, and even the commanded servo position is `int((3000 - 1000) / 2) =
1000`, not the midpoint. -/
theorem controller_init_not_midpoint :
    (controller_init ⟨1000, 3000⟩ ⟨1000, 3000⟩).new_azimuth ≠ 2000 ∧
    (controller_init ⟨1000, 3000⟩ ⟨1000, 3000⟩).new_elevation ≠ 2000 ∧
    (controller_init ⟨1000, 3000⟩ ⟨1000, 3000⟩).elevation_position = 1000 ∧
    (1000 : ℤ) ≠ 2000 := by
  refine ⟨by norm_num [controller_init], by norm_num [controller_init], ?_, by norm_num⟩
  show intTrunc (((3000 : ℚ) - 1000) / 2) = 1000
  norm_num [intTrunc]

/-- C7 as amended: at construction the azimuth and elevation setpoints
(and the PID setpoints) are initialized to 0, while each actuator is
commanded to position `int((max_position - min_position) / 2)` — half
the width of its command range, which is the mid-range point only when
`min_position = 0`. -/
theorem controller_init_state (az el : ServoBounds) :
    (controller_init az el).new_azimuth = 0 ∧
    (controller_init az el).new_elevation = 0 ∧
    (controller_init az el).azimuth_pid_setpoint = 0 ∧
    (controller_init az el).elevation_pid_setpoint = 0 ∧
    (controller_init az el).deadzone = none ∧
    (controller_init az el).azimuth_position =
      intTrunc (((az.max_position : ℚ) - (az.min_position : ℚ)) / 2) ∧
    (controller_init az el).elevation_position =
      intTrunc (((el.max_position : ℚ) - (el.min_position : ℚ)) / 2) :=
  ⟨rfl, rfl, rfl, rfl, rfl, rfl, rfl⟩

/-! ## `start` / `start_pid_loop` (lines 64-65 and 108-117)

Straight-line code: write `new_elevation` and `new_azimuth` from the IMU,
copy them into the two PID setpoints, then `pid_loop_timer.init(...)`.
We record the write/arm sequence as an event trace. -/

inductive StartEvent where
  | write_new_elevation (v : ℚ)
  | write_new_azimuth (v : ℚ)
  | write_azimuth_pid_setpoint (v : ℚ)
  | write_elevation_pid_setpoint (v : ℚ)
  | timer_init (period : ℤ)
deriving DecidableEq

structure LoopState where
  new_elevation : ℚ
  new_azimuth : ℚ
  azimuth_pid_setpoint : ℚ
  elevation_pid_setpoint : ℚ
  timer_armed : Bool
deriving DecidableEq

/-- `PIDPlatformController.start_pid_loop` given the IMU's current
elevation/azimuth readings and the configured `pid_frequency`. -/
def start_pid_loop (imu_el imu_az : ℚ) (period : ℤ) (s : LoopState) :
    LoopState × List StartEvent :=
  let s1 := { s with new_elevation := imu_el }
  let s2 := { s1 with new_azimuth := imu_az }
  let s3 := { s2 with azimuth_pid_setpoint := s2.new_azimuth }
  let s4 := { s3 with elevation_pid_setpoint := s3.new_elevation }
  ({ s4 with timer_armed := true },
   [StartEvent.write_new_elevation imu_el,
    StartEvent.write_new_azimuth imu_az,
    StartEvent.write_azimuth_pid_setpoint imu_az,
    StartEvent.write_elevation_pid_setpoint imu_el,
    StartEvent.timer_init period])

/-- `PIDPlatformController.start` just delegates to `start_pid_loop`. -/
def start (imu_el imu_az : ℚ) (period : ℤ) (s : LoopState) :
    LoopState × List StartEvent :=
  start_pid_loop imu_el imu_az period s

/-- C8: every `start()` call overwrites both setpoints and both PID
setpoints with the IMU's current readings, and the event trace shows all
four writes strictly before the single timer-arming event at the
configured frequency. -/
theorem start_overwrites_then_arms (imu_el imu_az : ℚ) (period : ℤ)
    (s : LoopState) :
    (start imu_el imu_az period s).1 =
      { new_elevation := imu_el, new_azimuth := imu_az,
        azimuth_pid_setpoint := imu_az, elevation_pid_setpoint := imu_el,
        timer_armed := true } ∧
    (start imu_el imu_az period s).2 =
      [StartEvent.write_new_elevation imu_el,
       StartEvent.write_new_azimuth imu_az,
       StartEvent.write_azimuth_pid_setpoint imu_az,
       StartEvent.write_elevation_pid_setpoint imu_el,
       StartEvent.timer_init period] ∧
    (start imu_el imu_az period s).2.getLast? =
      some (StartEvent.timer_init period) :=
  ⟨rfl, rfl, rfl⟩

/-! ## Servo range calibrators: setup phase
(`auto_calibrate_elevation_servo` lines 263-269,
`auto_calibrate_azimuth_servo` lines 310-317)

A servo here carries its command bounds and its last commanded position;
clamping inside the actuator driver is out of scope (spec §1).  The IMU
baseline reading is a function of the platform pose reached after the
settle delay. -/

structure ServoPos where
  min_position : ℤ
  max_position : ℤ
  position : ℤ
deriving DecidableEq

structure PlatformState where
  azimuth : ServoPos
  elevation : ServoPos
deriving DecidableEq

/-- Setup phase of `auto_calibrate_elevation_servo` (lines 263-269):
reset the elevation bounds to `0..4095`, then
`self.elevation.set_position(int((self.azimuth.get_max_position() -
self.azimuth.get_min_position()) / 2))` — note it commands the
*elevation* servo with a value computed from the *azimuth* bounds —
settle, and read the IMU elevation baseline. -/
def auto_calibrate_elevation_setup (imu_elevation : PlatformState → ℚ)
    (p : PlatformState) : PlatformState × ℚ :=
  let el1 : ServoPos := { p.elevation with min_position := 0, max_position := 4095 }
  let cmd := intTrunc (((p.azimuth.max_position : ℚ) - (p.azimuth.min_position : ℚ)) / 2)
  let p2 : PlatformState := { p with elevation := { el1 with position := cmd } }
  (p2, imu_elevation p2)

/-- Setup phase of `auto_calibrate_azimuth_servo` (lines 310-317): reset
the azimuth bounds to `0..4095`, command *both* the elevation and the
azimuth servo to `int((azimuth_max - azimuth_min) / 2)` (evaluated after
the reset, hence 2047), settle, and read the IMU azimuth baseline. -/
def auto_calibrate_azimuth_setup (imu_azimuth : PlatformState → ℚ)
    (p : PlatformState) : PlatformState × ℚ :=
  let az1 : ServoPos := { p.azimuth with min_position := 0, max_position := 4095 }
  let cmd := intTrunc (((az1.max_position : ℚ) - (az1.min_position : ℚ)) / 2)
  let p2 : PlatformState :=
    { azimuth := { az1 with position := cmd },
      elevation := { p.elevation with position := cmd } }
  (p2, imu_azimuth p2)

/-- Counterexample to C6: with azimuth bounds `1000..3000` (midpoint
2000), the elevation calibrator's setup leaves the cross-axis (azimuth)
untouched at position 0 — it is never moved to its midpoint 2000 — and
instead commands the target axis (elevation) itself, to
`int((3000 - 1000) / 2) = 1000`. -/
theorem calibrate_elevation_setup_moves_target_axis :
    (auto_calibrate_elevation_setup (fun _ => 0)
        ⟨⟨1000, 3000, 0⟩, ⟨500, 2500, 600⟩⟩).1.azimuth =
      ⟨1000, 3000, 0⟩ ∧
    (auto_calibrate_elevation_setup (fun _ => 0)
        ⟨⟨1000, 3000, 0⟩, ⟨500, 2500, 600⟩⟩).1.azimuth.position ≠ 2000 ∧
    (auto_calibrate_elevation_setup (fun _ => 0)
        ⟨⟨1000, 3000, 0⟩, ⟨500, 2500, 600⟩⟩).1.elevation.position = 1000 ∧
    (auto_calibrate_elevation_setup (fun _ => 0)
        ⟨⟨1000, 3000, 0⟩, ⟨500, 2500, 600⟩⟩).1.elevation.position ≠ 600 ∧
    (1000 : ℤ) ≠ 2000 := by
  refine ⟨rfl, by decide, ?_, ?_, by decide⟩
  · norm_num [auto_calibrate_elevation_setup, intTrunc]
  · norm_num [auto_calibrate_elevation_setup, intTrunc]

/-- C6 as amended: each calibrator resets the target axis's bounds to
the full nominal range `0..4095`; the elevation calibrator then commands
the elevation (target) axis itself to `int((azimuth_max - azimuth_min) /
2)` and leaves the azimuth servo uncommanded, while the azimuth
calibrator commands both the elevation and the azimuth servo to
`int((4095 - 0) / 2) = 2047`; each then settles and records a baseline
reading of the freshly reached pose. -/
theorem calibrate_setup_state (imu_el imu_az : PlatformState → ℚ)
    (p : PlatformState) :
    (auto_calibrate_elevation_setup imu_el p).1.elevation.min_position = 0 ∧
    (auto_calibrate_elevation_setup imu_el p).1.elevation.max_position = 4095 ∧
    (auto_calibrate_elevation_setup imu_el p).1.elevation.position =
      intTrunc (((p.azimuth.max_position : ℚ) - (p.azimuth.min_position : ℚ)) / 2) ∧
    (auto_calibrate_elevation_setup imu_el p).1.azimuth = p.azimuth ∧
    (auto_calibrate_elevation_setup imu_el p).2 =
      imu_el (auto_calibrate_elevation_setup imu_el p).1 ∧
    (auto_calibrate_azimuth_setup imu_az p).1.azimuth = ⟨0, 4095, 2047⟩ ∧
    (auto_calibrate_azimuth_setup imu_az p).1.elevation =
      { p.elevation with position := 2047 } ∧
    (auto_calibrate_azimuth_setup imu_az p).2 =
      imu_az (auto_calibrate_azimuth_setup imu_az p).1 := by
  refine ⟨rfl, rfl, rfl, rfl, rfl, ?_, ?_, rfl⟩
  · norm_num [auto_calibrate_azimuth_setup, intTrunc]
  · norm_num [auto_calibrate_azimuth_setup, intTrunc]

/-! ## Servo range calibrators: sweep phase
(`auto_calibrate_elevation_servo` lines 270-301,
`auto_calibrate_azimuth_servo` lines 319-350)

Both sweeps share one loop body.  Sensor behaviour is modelled by
`currentAt i` (the IMU reading after commanding position `i` and
settling `t`) and `recheckAt i` (the reading taken inside the
stop-motion branch after commanding `i + 100`). -/

structure SweepState where
  moving : Bool
  first_move : Bool
  prev : ℚ
  min_us : Option ℤ
  max_us : Option ℤ
deriving DecidableEq

inductive SweepResult where
  | next (s : SweepState)
  | done (s : SweepState)
deriving DecidableEq

/-- One iteration of the sweep loop body at position `i`, with reading
`current` and stop-motion recheck reading `recheck`.  Note the source
records `min_us = i + 100` and `max_us = i - 100` with the literal 100
(lines 289/299 and 338/348), not the step parameter `us`; in the
`continue` path (transient stop) `prev` is deliberately not updated
(the `continue` skips line 301/350). -/
def sweep_step (d : ℚ) (i : ℤ) (current recheck : ℚ) (s : SweepState) :
    SweepResult :=
  let delta := get_delta current s.prev
  if delta > d ∧ s.first_move = false then
    SweepResult.next { s with first_move := true, prev := current }
  else if delta > d ∧ s.first_move = true ∧ s.moving = false then
    SweepResult.next { s with moving := true, min_us := some (i + 100), prev := current }
  else if delta < d ∧ s.moving = true then
    if get_delta recheck current > d then
      SweepResult.next s
    else
      SweepResult.done { s with max_us := some (i - 100) }
  else
    SweepResult.next { s with prev := current }

/-- The sweep over a list of commanded positions; an early `return`
(stop-motion confirmed) abandons the rest of the positions. -/
def sweep_run (d : ℚ) (currentAt recheckAt : ℤ → ℚ) :
    List ℤ → SweepState → SweepState
  | [], s => s
  | i :: rest, s =>
      match sweep_step d i (currentAt i) (recheckAt i) s with
      | SweepResult.next s2 => sweep_run d currentAt recheckAt rest s2
      | SweepResult.done s2 => s2

/-- Python `range(lo, hi, us)` for a positive step. -/
def range_step (lo hi us : ℤ) : List ℤ :=
  (List.range ((hi - lo + us - 1).toNat / us.toNat)).map (fun k => lo + (k : ℤ) * us)

/-- The whole sweep of either servo range calibrator: after the bounds
reset the loop runs over `range(0, 4095, us)` starting from the baseline
reading `prev0` with both flags clear. -/
def auto_calibrate_servo_sweep (us : ℤ) (d : ℚ) (currentAt recheckAt : ℤ → ℚ)
    (prev0 : ℚ) : SweepState :=
  sweep_run d currentAt recheckAt (range_step 0 4095 us)
    { moving := false, first_move := false, prev := prev0,
      min_us := none, max_us := none }

/-- Simulated sensor for the C5 counterexample: still below command
1000, moving 100 units of angle per 1000 units of command up to 2000,
still afterwards. -/
def c5_sensor (i : ℤ) : ℚ :=
  if i < 1000 then 0 else if i ≤ 2000 then (i : ℚ) / 10 else 200

/-- Recheck reading inside the stop-motion branch: the pose reached
after commanding `i + 100`. -/
def c5_recheck (i : ℤ) : ℚ := c5_sensor (i + 100)

/-- Counterexample to C5: sweeping with step `us = 1000` over the
simulated sensor, sustained motion is confirmed at position `i = 2000`
and sustained stop at `i = 3000`, yet the recorded bounds are
`2100 = 2000 + 100` and `2900 = 3000 - 100` — the literal offset 100,
not the step `us`, which the claim says would give `2000 + 1000 = 3000`
and `3000 - 1000 = 2000`. -/
theorem calibrate_servo_sweep_offset_not_us :
    auto_calibrate_servo_sweep 1000 (1/2) c5_sensor c5_recheck 0 =
      ⟨true, true, 200, some 2100, some 2900⟩ ∧
    some (2100 : ℤ) ≠ some (2000 + 1000 : ℤ) ∧
    some (2900 : ℤ) ≠ some (3000 - 1000 : ℤ) := by
  have hpos : range_step 0 4095 1000 = [0, 1000, 2000, 3000, 4000] := by decide
  have e0 : sweep_step (1/2) 0 (c5_sensor 0) (c5_recheck 0)
      ⟨false, false, 0, none, none⟩ =
      SweepResult.next ⟨false, false, 0, none, none⟩ := by
    norm_num [sweep_step, get_delta, ratAbs, c5_sensor]
  have e1 : sweep_step (1/2) 1000 (c5_sensor 1000) (c5_recheck 1000)
      ⟨false, false, 0, none, none⟩ =
      SweepResult.next ⟨false, true, 100, none, none⟩ := by
    norm_num [sweep_step, get_delta, ratAbs, c5_sensor]
  have e2 : sweep_step (1/2) 2000 (c5_sensor 2000) (c5_recheck 2000)
      ⟨false, true, 100, none, none⟩ =
      SweepResult.next ⟨true, true, 200, some 2100, none⟩ := by
    norm_num [sweep_step, get_delta, ratAbs, c5_sensor]
  have e3 : sweep_step (1/2) 3000 (c5_sensor 3000) (c5_recheck 3000)
      ⟨true, true, 200, some 2100, none⟩ =
      SweepResult.done ⟨true, true, 200, some 2100, some 2900⟩ := by
    norm_num [sweep_step, get_delta, ratAbs, c5_sensor, c5_recheck]
  have hrun : auto_calibrate_servo_sweep 1000 (1/2) c5_sensor c5_recheck 0 =
      ⟨true, true, 200, some 2100, some 2900⟩ := by
    unfold auto_calibrate_servo_sweep
    rw [hpos]
    simp only [sweep_run, e0, e1, e2, e3]
  exact ⟨hrun, by decide, by decide⟩

/-- C5 as amended: whatever the step size `us`, when the sweep confirms
sustained motion at position `i` (delta above threshold with `first_move`
set and `moving` clear) it records the refined minimum bound as the
literal `i + 100`, and when it confirms sustained stop-motion at `i`
(delta below threshold while `moving`, recheck delta not above
threshold) it records the refined maximum bound as the literal `i - 100`
and terminates the sweep; the offsets coincide with `i ± us` only when
`us = 100`. -/
theorem sweep_records_fixed_offsets (d : ℚ) (i : ℤ) (currentAt recheckAt : ℤ → ℚ)
    (rest : List ℤ) (s : SweepState) :
    (get_delta (currentAt i) s.prev > d → s.first_move = true → s.moving = false →
      sweep_step d i (currentAt i) (recheckAt i) s =
        SweepResult.next
          { s with moving := true, min_us := some (i + 100), prev := currentAt i }) ∧
    (get_delta (currentAt i) s.prev < d → s.moving = true →
      ¬ get_delta (recheckAt i) (currentAt i) > d →
      sweep_run d currentAt recheckAt (i :: rest) s =
        { s with max_us := some (i - 100) }) := by
  constructor
  · intro hd hf hm
    unfold sweep_step
    rw [if_neg (by simp [hf, hd]), if_pos ⟨hd, hf, hm⟩]
  · intro hd hm hr
    have hstep : sweep_step d i (currentAt i) (recheckAt i) s =
        SweepResult.done { s with max_us := some (i - 100) } := by
      unfold sweep_step
      rw [if_neg (by simp [hd, not_lt.mpr (le_of_lt hd)]),
          if_neg (by simp [not_lt.mpr (le_of_lt hd)]),
          if_pos ⟨hd, hm⟩, if_neg hr]
    simp [sweep_run, hstep]

/-- Witness for the amended C5 at concrete inputs: motion confirmed at
`i = 500` records `min_us = 600`; stop confirmed at `i = 3500` records
`max_us = 3400` and the sweep stops there. -/
theorem sweep_records_fixed_offsets_witness :
    (sweep_step (1/2) 500 ((fun _ => (10 : ℚ)) 500) ((fun _ => (10 : ℚ)) 500)
        { moving := false, first_move := true, prev := 0,
          min_us := none, max_us := none } =
      SweepResult.next
        { moving := true, first_move := true, prev := 10,
          min_us := some 600, max_us := none }) ∧
    (sweep_run (1/2) (fun _ => (10 : ℚ)) (fun _ => (10 : ℚ)) [3500, 3600]
        { moving := true, first_move := true, prev := 10,
          min_us := some 600, max_us := none } =
      { moving := true, first_move := true, prev := 10,
        min_us := some 600, max_us := some 3400 }) :=
  ⟨(sweep_records_fixed_offsets (1/2) 500 (fun _ => (10 : ℚ)) (fun _ => (10 : ℚ)) []
      { moving := false, first_move := true, prev := 0,
        min_us := none, max_us := none }).1
      (by norm_num [get_delta, ratAbs]) rfl rfl,
   (sweep_records_fixed_offsets (1/2) 3500 (fun _ => (10 : ℚ)) (fun _ => (10 : ℚ)) [3600]
      { moving := true, first_move := true, prev := 10,
        min_us := some 600, max_us := none }).2
      (by norm_num [get_delta, ratAbs]) rfl (by norm_num [get_delta, ratAbs])⟩

/-! ## Sensor calibrators
(`auto_calibrate_gyroscope` lines 224-241,
`auto_calibrate_accelerometer` lines 157-189)

Both procedures call `prepare_calibration` (saving the old fusion mode),
poll the confidence status until it reaches 3, then restore the old mode
and commit the calibration, returning the commit result.  Confidence
readings are a stream indexed by poll number; for the accelerometer,
`time.time()` values are a stream indexed by call number and the random
positions a stream indexed by perturbation number.  The unbounded
`while` loop is run with explicit fuel; running out of fuel (the loop
not having terminated) yields `none`. -/

inductive CalEvent where
  | prepare
  | poll (level : ℕ)
  | perturb (el az : ℤ)
  | restore
  | commit
deriving DecidableEq

/-- The body of `while gyro_level < 3: gyro_level = self.imu.get_gyro_status()`:
pure polling, no actuation. -/
def gyro_poll (readings : ℕ → ℕ) : ℕ → ℕ → ℕ → Option (List CalEvent)
  | 0, _, level => if level < 3 then none else some []
  | fuel + 1, k, level =>
      if level < 3 then
        match gyro_poll readings fuel (k + 1) (readings k) with
        | some evs => some (CalEvent.poll (readings k) :: evs)
        | none => none
      else some []

/-- `PIDPlatformController.auto_calibrate_gyroscope`: prepare (saving the
old mode), poll the gyro status until it reaches 3, restore the old
mode, commit, and return the commit result. -/
def auto_calibrate_gyroscope (readings : ℕ → ℕ) (commit_result : ℕ)
    (fuel : ℕ) : Option (List CalEvent × ℕ) :=
  match gyro_poll readings fuel 1 (readings 0) with
  | some evs =>
      some (CalEvent.prepare :: CalEvent.poll (readings 0) ::
              (evs ++ [CalEvent.restore, CalEvent.commit]),
            commit_result)
  | none => none

/-- Environment of the accelerometer loop: confidence stream, the values
successive `time.time()` calls return, and the successive random
position pairs. -/
structure AccelCtx where
  status : ℕ → ℕ
  times : ℕ → ℤ
  rand : ℕ → ℤ × ℤ

/-- Mutable state of the accelerometer loop: next status poll index,
next time-call index, next random-pair index, the recorded `start`
time, and the current confidence level. -/
structure AccelSt where
  k : ℕ
  t : ℕ
  r : ℕ
  start : ℤ
  level : ℕ

/-- The body of the accelerometer `while accel_level < 3` loop: when
more than 2 time units have elapsed since `start`, command a random
position on both axes and re-read the clock into `start`; then poll the
status. -/
def accel_poll (c : AccelCtx) : ℕ → AccelSt → Option (List CalEvent)
  | 0, st => if st.level < 3 then none else some []
  | fuel + 1, st =>
      if st.level < 3 then
        if c.times st.t - st.start > 2 then
          match accel_poll c fuel
              { k := st.k + 1, t := st.t + 2, r := st.r + 1,
                start := c.times (st.t + 1), level := c.status st.k } with
          | some evs =>
              some (CalEvent.perturb (c.rand st.r).1 (c.rand st.r).2 ::
                      CalEvent.poll (c.status st.k) :: evs)
          | none => none
        else
          match accel_poll c fuel
              { st with k := st.k + 1, t := st.t + 1, level := c.status st.k } with
          | some evs => some (CalEvent.poll (c.status st.k) :: evs)
          | none => none
      else some []

/-- `PIDPlatformController.auto_calibrate_accelerometer`: prepare, read
the starting confidence and the clock, run the perturb-and-poll loop
until confidence 3, restore the old mode, commit, and return the commit
result. -/
def auto_calibrate_accelerometer (c : AccelCtx) (commit_result : ℕ)
    (fuel : ℕ) : Option (List CalEvent × ℕ) :=
  match accel_poll c fuel
      { k := 1, t := 1, r := 0, start := c.times 0, level := c.status 0 } with
  | some evs =>
      some (CalEvent.prepare :: CalEvent.poll (c.status 0) ::
              (evs ++ [CalEvent.restore, CalEvent.commit]),
            commit_result)
  | none => none

/-- The trace restores the saved mode exactly once and commits exactly
once, in that order, at the very end. -/
def oneRestoreThenCommit (tr : List CalEvent) : Prop :=
  tr.count CalEvent.restore = 1 ∧ tr.count CalEvent.commit = 1 ∧
  tr.getLast? = some CalEvent.commit ∧
  tr.dropLast.getLast? = some CalEvent.restore

lemma gyro_poll_only_polls (readings : ℕ → ℕ) :
    ∀ fuel k level evs, gyro_poll readings fuel k level = some evs →
      CalEvent.restore ∉ evs ∧ CalEvent.commit ∉ evs := by
  intro fuel
  induction fuel with
  | zero =>
      intro k level evs h
      unfold gyro_poll at h
      by_cases hl : level < 3
      · rw [if_pos hl] at h
        exact absurd h (by simp)
      · rw [if_neg hl] at h
        obtain rfl : [] = evs := by simpa using h
        simp
  | succ n ih =>
      intro k level evs h
      unfold gyro_poll at h
      by_cases hl : level < 3
      · rw [if_pos hl] at h
        cases hrec : gyro_poll readings n (k + 1) (readings k) with
        | none => rw [hrec] at h; exact absurd h (by simp)
        | some evs2 =>
            rw [hrec] at h
            obtain rfl : CalEvent.poll (readings k) :: evs2 = evs := by simpa using h
            have h2 := ih (k + 1) (readings k) evs2 hrec
            simp [h2.1, h2.2]
      · rw [if_neg hl] at h
        obtain rfl : [] = evs := by simpa using h
        simp

lemma accel_poll_only_polls (c : AccelCtx) :
    ∀ fuel st evs, accel_poll c fuel st = some evs →
      CalEvent.restore ∉ evs ∧ CalEvent.commit ∉ evs := by
  intro fuel
  induction fuel with
  | zero =>
      intro st evs h
      unfold accel_poll at h
      by_cases hl : st.level < 3
      · rw [if_pos hl] at h
        exact absurd h (by simp)
      · rw [if_neg hl] at h
        obtain rfl : [] = evs := by simpa using h
        simp
  | succ n ih =>
      intro st evs h
      unfold accel_poll at h
      by_cases hl : st.level < 3
      · rw [if_pos hl] at h
        by_cases ht : c.times st.t - st.start > 2
        · rw [if_pos ht] at h
          cases hrec : accel_poll c n
              { k := st.k + 1, t := st.t + 2, r := st.r + 1,
                start := c.times (st.t + 1), level := c.status st.k } with
          | none => rw [hrec] at h; exact absurd h (by simp)
          | some evs2 =>
              rw [hrec] at h
              obtain rfl :
                  CalEvent.perturb (c.rand st.r).1 (c.rand st.r).2 ::
                    CalEvent.poll (c.status st.k) :: evs2 = evs := by
                simpa using h
              have h2 := ih _ evs2 hrec
              simp [h2.1, h2.2]
        · rw [if_neg ht] at h
          cases hrec : accel_poll c n
              { st with k := st.k + 1, t := st.t + 1, level := c.status st.k } with
          | none => rw [hrec] at h; exact absurd h (by simp)
          | some evs2 =>
              rw [hrec] at h
              obtain rfl : CalEvent.poll (c.status st.k) :: evs2 = evs := by
                simpa using h
              have h2 := ih _ evs2 hrec
              simp [h2.1, h2.2]
      · rw [if_neg hl] at h
        obtain rfl : [] = evs := by simpa using h
        simp

lemma wrapped_trace_one_restore_then_commit (l0 : ℕ) (evs : List CalEvent)
    (hres : CalEvent.restore ∉ evs) (hcom : CalEvent.commit ∉ evs) :
    oneRestoreThenCommit
      (CalEvent.prepare :: CalEvent.poll l0 ::
        (evs ++ [CalEvent.restore, CalEvent.commit])) := by
  have hform : CalEvent.prepare :: CalEvent.poll l0 ::
      (evs ++ [CalEvent.restore, CalEvent.commit]) =
      ((CalEvent.prepare :: CalEvent.poll l0 :: evs) ++ [CalEvent.restore]) ++
        [CalEvent.commit] := by
    simp
  refine ⟨?_, ?_, ?_, ?_⟩
  · simp [List.count_cons, List.count_append, List.count_eq_zero.mpr hres]
  · simp [List.count_cons, List.count_append, List.count_eq_zero.mpr hcom]
  · rw [hform, List.getLast?_concat]
  · rw [hform, List.dropLast_concat, List.getLast?_concat]

/-- C9: whenever a gyroscope calibration run and an accelerometer
calibration run terminate (confidence reaches 3 within the provided
fuel), each returns exactly the commit result, and its event trace
restores the previously saved fusion mode exactly once and issues
exactly one commit, the restore happening immediately before the final
commit. -/
theorem calibrate_restores_once_then_commits (readings : ℕ → ℕ)
    (c : AccelCtx) (cr1 cr2 fuel1 fuel2 : ℕ) (tr1 tr2 : List CalEvent)
    (r1 r2 : ℕ)
    (h1 : auto_calibrate_gyroscope readings cr1 fuel1 = some (tr1, r1))
    (h2 : auto_calibrate_accelerometer c cr2 fuel2 = some (tr2, r2)) :
    r1 = cr1 ∧ oneRestoreThenCommit tr1 ∧
    r2 = cr2 ∧ oneRestoreThenCommit tr2 := by
  refine ⟨?_, ?_, ?_, ?_⟩
  · unfold auto_calibrate_gyroscope at h1
    cases hrec : gyro_poll readings fuel1 1 (readings 0) with
    | none => rw [hrec] at h1; exact absurd h1 (by simp)
    | some evs =>
        rw [hrec] at h1
        exact (congrArg Prod.snd ((Option.some.injEq _ _).mp h1)).symm
  · unfold auto_calibrate_gyroscope at h1
    cases hrec : gyro_poll readings fuel1 1 (readings 0) with
    | none => rw [hrec] at h1; exact absurd h1 (by simp)
    | some evs =>
        rw [hrec] at h1
        have hpair := (Option.some.injEq _ _).mp h1
        have htr : CalEvent.prepare :: CalEvent.poll (readings 0) ::
            (evs ++ [CalEvent.restore, CalEvent.commit]) = tr1 :=
          congrArg Prod.fst hpair
        have honly := gyro_poll_only_polls readings fuel1 1 (readings 0) evs hrec
        rw [← htr]
        exact wrapped_trace_one_restore_then_commit (readings 0) evs honly.1 honly.2
  · unfold auto_calibrate_accelerometer at h2
    cases hrec : accel_poll c fuel2
        { k := 1, t := 1, r := 0, start := c.times 0, level := c.status 0 } with
    | none => rw [hrec] at h2; exact absurd h2 (by simp)
    | some evs =>
        rw [hrec] at h2
        exact (congrArg Prod.snd ((Option.some.injEq _ _).mp h2)).symm
  · unfold auto_calibrate_accelerometer at h2
    cases hrec : accel_poll c fuel2
        { k := 1, t := 1, r := 0, start := c.times 0, level := c.status 0 } with
    | none => rw [hrec] at h2; exact absurd h2 (by simp)
    | some evs =>
        rw [hrec] at h2
        have hpair := (Option.some.injEq _ _).mp h2
        have htr : CalEvent.prepare :: CalEvent.poll (c.status 0) ::
            (evs ++ [CalEvent.restore, CalEvent.commit]) = tr2 :=
          congrArg Prod.fst hpair
        have honly := accel_poll_only_polls c fuel2 _ evs hrec
        rw [← htr]
        exact wrapped_trace_one_restore_then_commit (c.status 0) evs honly.1 honly.2

/-- Witness for C9: confidence streams reaching 3 after exactly 3 polls
of the loop (readings 0, 1, 2, 3), ample fuel; both traces are
`[prepare, poll 0, poll 1, poll 2, poll 3, restore, commit]` and the
commit results 7 and 9 are returned. -/
theorem calibrate_restores_once_then_commits_witness :
    7 = 7 ∧
    oneRestoreThenCommit
      [CalEvent.prepare, CalEvent.poll 0, CalEvent.poll 1, CalEvent.poll 2,
       CalEvent.poll 3, CalEvent.restore, CalEvent.commit] ∧
    9 = 9 ∧
    oneRestoreThenCommit
      [CalEvent.prepare, CalEvent.poll 0, CalEvent.poll 1, CalEvent.poll 2,
       CalEvent.poll 3, CalEvent.restore, CalEvent.commit] :=
  calibrate_restores_once_then_commits
    (fun k => k) ⟨fun k => k, fun _ => 0, fun _ => (0, 0)⟩ 7 9 5 5
    [CalEvent.prepare, CalEvent.poll 0, CalEvent.poll 1, CalEvent.poll 2,
     CalEvent.poll 3, CalEvent.restore, CalEvent.commit]
    [CalEvent.prepare, CalEvent.poll 0, CalEvent.poll 1, CalEvent.poll 2,
     CalEvent.poll 3, CalEvent.restore, CalEvent.commit]
    7 9 (by decide) (by decide)

end Antenny
